import Mathlib

/-!
# Shallow embedding of the Siema carousel core

This file embeds `src/cached_event_registry.js` (the `CachedEventRegistry`
pub/sub primitive and the `Siema` carousel controller) and proves the claims
about it.  Measurements read from the render surface (bounding-rect widths)
are passed in explicitly as a `Measurements` record; items and callbacks are
opaque values compared by identity, modelled as naturals.  Arithmetic on
pixel coordinates follows ECMAScript number semantics for the values this
code can actually produce: finite reals (modelled as rationals), positive and
negative Infinity (the unclamped clamp bounds), and NaN (produced when an
out-of-bounds array read yields undefined and it enters arithmetic).
-/

/-- Model of an ECMAScript number as this code base can produce it: a finite
value, positive or negative Infinity, or NaN. -/
inductive JSNum where
  | nan : JSNum
  | inf : JSNum
  | negInf : JSNum
  | num : ℚ → JSNum
deriving DecidableEq, Repr

namespace JSNum

/-- JS subtraction: NaN propagates, Infinity minus Infinity is NaN. -/
def sub : JSNum → JSNum → JSNum
  | nan, _ => nan
  | _, nan => nan
  | inf, inf => nan
  | inf, _ => inf
  | negInf, negInf => nan
  | negInf, _ => negInf
  | num _, inf => negInf
  | num _, negInf => inf
  | num a, num b => num (a - b)

/-- JS division by the literal 2 (the only division the source performs). -/
def half : JSNum → JSNum
  | nan => nan
  | inf => inf
  | negInf => negInf
  | num a => num (a / 2)

/-- JS Math.abs. -/
def jsAbs : JSNum → JSNum
  | nan => nan
  | inf => inf
  | negInf => inf
  | num a => num |a|

/-- JS Math.min of two arguments: NaN when either argument is NaN. -/
def jsMin : JSNum → JSNum → JSNum
  | nan, _ => nan
  | _, nan => nan
  | negInf, _ => negInf
  | _, negInf => negInf
  | inf, b => b
  | a, inf => a
  | num a, num b => num (min a b)

/-- JS Math.max of two arguments: NaN when either argument is NaN. -/
def jsMax : JSNum → JSNum → JSNum
  | nan, _ => nan
  | _, nan => nan
  | inf, _ => inf
  | _, inf => inf
  | negInf, b => b
  | a, negInf => a
  | num a, num b => num (max a b)

/-- The JS `<` comparison: false whenever either side is NaN. -/
def ltB : JSNum → JSNum → Bool
  | nan, _ => false
  | _, nan => false
  | inf, _ => false
  | negInf, inf => true
  | num _, inf => true
  | negInf, negInf => false
  | negInf, num _ => true
  | num _, negInf => false
  | num a, num b => decide (a < b)

/-- JS strict equality on numbers: NaN is unequal to everything, itself
included. -/
def eqB : JSNum → JSNum → Bool
  | nan, _ => false
  | _, nan => false
  | a, b => decide (a = b)

end JSNum

/-- `Siema.clamp(value, min, max) = Math.max(min, Math.min(max, value))`
over JS numbers. -/
def jsClamp (value mn mx : JSNum) : JSNum := mn.jsMax (mx.jsMin value)

/-- `Siema.clamp` at integer arguments, as `goTo` and `moveBy` invoke it on
indices. -/
def jsClampInt (value mn mx : ℤ) : ℤ := max mn (min mx value)

/-- JS array element read `l[i]`: undefined outside the bounds, and undefined
entering arithmetic behaves as NaN. -/
def jsElem (l : List ℚ) (i : ℤ) : JSNum :=
  if 0 ≤ i then
    match l[i.toNat]? with
    | some w => .num w
    | none => .nan
  else .nan

/-- The prefix sum `widths.slice(0, index).reduce((sum, w) => sum + w, 0)`.
JS slice clamps the end argument to the array length and interprets a
negative end as counting back from the end of the array. -/
def jsSliceSum (l : List ℚ) (index : ℤ) : ℚ :=
  (l.take (if 0 ≤ index then index.toNat else ((l.length : ℤ) + index).toNat)).foldl (· + ·) 0

/-- JS `splice(start, 0, x)`: insert `x` at `start`, with `start` clamped into
`[0, length]` (`List.take`/`List.drop` clamp the same way, so an index past
the end appends). -/
def spliceInsert {α : Type} (l : List α) (k : ℕ) (x : α) : List α :=
  l.take k ++ x :: l.drop k

/-- JS `splice(start, 1)`: remove the element at `start` when it exists. -/
def spliceRemove {α : Type} (l : List α) (k : ℕ) : List α :=
  l.take k ++ l.drop (k + 1)

/-- The synchronous failures the embedded code can raise. -/
inductive JSError where
  /-- Calling undefined (the absent `Set.remove`) or `Array.reduce` on an
  empty array with no initial value. -/
  | typeError
  /-- The error `Siema.remove` throws for an out-of-range index. -/
  | removeIndexError
  /-- The error `Siema.insert` throws for an out-of-range index. -/
  | insertIndexError
  /-- The error `Siema.insert` throws for an already-present item. -/
  | duplicateItemError
deriving DecidableEq, Repr

/-- State of a `CachedEventRegistry`: the Set of listeners (insertion
ordered, no duplicates; callbacks are opaque and modelled by identity) and
the cached arguments of the last notification.  `Siema` constructs it with no
initial arguments, so `lastArgs` starts empty. -/
structure CachedEventRegistry where
  listeners : List ℕ
  lastArgs : List ℤ
deriving DecidableEq, Repr

namespace CachedEventRegistry

/-- `CachedEventRegistry.listen`: add the callback to the Set (a no-op when
it is already present) and, when cached arguments exist (`lastArgs.length`
is truthy), synchronously invoke the callback with them before returning.
The result pairs the new registry with the synchronous deliveries
(callback, arguments) performed during the call. -/
def listen (r : CachedEventRegistry) (cb : ℕ) : CachedEventRegistry × List (ℕ × List ℤ) :=
  ({ r with listeners := if cb ∈ r.listeners then r.listeners else r.listeners ++ [cb] },
   if r.lastArgs.isEmpty then [] else [(cb, r.lastArgs)])

/-- `CachedEventRegistry.notify`: cache the arguments, then invoke every
current listener with them in insertion order. -/
def notify (r : CachedEventRegistry) (args : List ℤ) : CachedEventRegistry × List (ℕ × List ℤ) :=
  ({ r with lastArgs := args }, r.listeners.map (fun l => (l, args)))

/-- The method names an ECMAScript Set object defines.  Removal is the
`delete` method; there is no method named `remove`. -/
def setMethodNames : List String :=
  ["add", "clear", "delete", "entries", "forEach", "has", "keys", "values"]

/-- The handle returned by `listen` runs `this._listeners.remove(callback)`.
A JS Set has no `remove` method (see `setMethodNames`), so the property
access yields undefined and calling undefined throws a TypeError; had the
method existed, it would have removed the callback from the Set. -/
def unsubscribe (r : CachedEventRegistry) (cb : ℕ) : Except JSError CachedEventRegistry :=
  if "remove" ∈ setMethodNames then
    .ok { r with listeners := r.listeners.erase cb }
  else
    .error .typeError

end CachedEventRegistry

/-- The geometry read from the render surface at one instant: the selector
bounding width, the slider-frame bounding width, and the bounding width of
each inner slide, one entry per slide in order. -/
structure Measurements where
  containerWidth : ℚ
  frameWidth : ℚ
  widths : List ℚ
deriving DecidableEq, Repr

/-- The drag record `this._drag`.  `startingTranslation` is absent
(undefined, modelled as NaN) until `mousedown` or `clearDrag` first writes
it; `letItGo` is the tri-state axis lock, null before the first touchmove of
a gesture. -/
structure Drag where
  startingTranslation : JSNum
  startX : ℚ
  endX : ℚ
  startY : ℚ
  letItGo : Option Bool
deriving DecidableEq, Repr

/-- The observable state of one `Siema` instance.  `innerElements` holds the
opaque, identity-compared items; `innerSlides` the per-item wrapper slides
rebuilt by `resetFrameSlides` (kept as the same identities, one per element).
`deliveries` is the cumulative trace of every synchronous callback invocation
the registry performed, and `translationWrites` counts the calls to
`setTranslation`, so that recomputation and notification are observable.
`stickToEdges` and `duration` are the configuration fields the core reads. -/
structure SiemaState where
  innerElements : List ℕ
  innerSlides : List ℕ
  currentSlide : ℤ
  registry : CachedEventRegistry
  deliveries : List (ℕ × List ℤ)
  currentTranslation : JSNum
  translationWrites : ℕ
  transitionDuration : ℚ
  pointerDown : Bool
  drag : Drag
  stickToEdges : Bool
  duration : ℚ
deriving DecidableEq, Repr

namespace Siema

/-- The number of synchronous deliveries the registry has performed so far. -/
def deliveryCount (s : SiemaState) : ℕ := s.deliveries.length

/-- `Siema._setTranslation`. -/
def setTranslation (s : SiemaState) (v : JSNum) : SiemaState :=
  { s with currentTranslation := v, translationWrites := s.translationWrites + 1 }

/-- `Siema._setTransition` (the easing string is opaque and not tracked). -/
def setTransition (s : SiemaState) (d : ℚ) : SiemaState :=
  { s with transitionDuration := d }

/-- `Siema._setCurrentSlide`: store the index, then unconditionally notify the
registry with it. -/
def setCurrentSlide (s : SiemaState) (slide : ℤ) : SiemaState :=
  let s := { s with currentSlide := slide }
  let p := s.registry.notify [s.currentSlide]
  { s with registry := p.1, deliveries := s.deliveries ++ p.2 }

/-- `Siema._resetFrameSlides`: rebuild the frame, resetting its transition to
the configured duration and its translation to 0, and recreate one wrapper
slide per inner element. -/
def resetFrameSlides (s : SiemaState) : SiemaState :=
  let s := setTransition s s.duration
  let s := setTranslation s (.num 0)
  { s with innerSlides := s.innerElements }

/-- `Siema._calculateTranslation`. -/
def calculateTranslation (m : Measurements) (index : ℤ) (stickToEdges : Bool) : JSNum :=
  let previousWidthSum := jsSliceSum m.widths index
  let translation :=
    (JSNum.num (m.containerWidth / 2 - previousWidthSum)).sub ((jsElem m.widths index).half)
  let maxClamp := if stickToEdges then JSNum.num 0 else JSNum.inf
  let minClamp := if stickToEdges then
      (JSNum.num 0).jsMin (JSNum.num (m.containerWidth - m.frameWidth))
    else JSNum.negInf
  jsClamp translation minClamp maxClamp

/-- `Siema._slideToIndex`. -/
def slideToIndex (m : Measurements) (s : SiemaState) (index : ℤ) : SiemaState :=
  setTranslation s (calculateTranslation m index s.stickToEdges)

/-- `Siema._slideToCurrent`. -/
def slideToCurrent (m : Measurements) (s : SiemaState) : SiemaState :=
  slideToIndex m s s.currentSlide

/-- `Siema.goTo`: clamp, always `setCurrentSlide` (which always notifies),
and slide only when the stored index actually changed. -/
def goTo (m : Measurements) (s : SiemaState) (index : ℤ) : SiemaState :=
  let beforeChange := s.currentSlide
  let s := setCurrentSlide s (jsClampInt index 0 s.innerElements.length)
  if beforeChange ≠ s.currentSlide then slideToCurrent m s else s

/-- `Siema.moveBy`. -/
def moveBy (m : Measurements) (s : SiemaState) (howManySlides : ℤ) : SiemaState :=
  goTo m s (jsClampInt (s.currentSlide + howManySlides) 0 s.innerSlides.length)

/-- `Siema.next` (the source default argument is 1). -/
def next (m : Measurements) (s : SiemaState) (howManySlides : ℤ) : SiemaState :=
  moveBy m s howManySlides

/-- `Siema.prev` (the source default argument is 1). -/
def prev (m : Measurements) (s : SiemaState) (howManySlides : ℤ) : SiemaState :=
  moveBy m s (-howManySlides)

/-- `Siema.remove`.  The range check precedes every state change. -/
def remove (s : SiemaState) (index : ℤ) : Except JSError SiemaState :=
  if index < 0 ∨ (s.innerElements.length : ℤ) ≤ index then .error .removeIndexError
  else
    let s := setCurrentSlide s
      (if index ≤ s.currentSlide then s.currentSlide - 1 else s.currentSlide)
    let s := { s with innerElements := spliceRemove s.innerElements index.toNat }
    .ok (resetFrameSlides s)

/-- `Siema.insert`.  Both checks precede every state change; the duplicate
check is the identity comparison `indexOf` performs. -/
def insert (s : SiemaState) (item : ℕ) (index : ℤ) : Except JSError SiemaState :=
  if index < 0 ∨ (s.innerElements.length : ℤ) + 1 < index then .error .insertIndexError
  else if item ∈ s.innerElements then .error .duplicateItemError
  else
    let s := setCurrentSlide s
      (if index ≤ s.currentSlide then s.currentSlide + 1 else s.currentSlide)
    let s := { s with innerElements := spliceInsert s.innerElements index.toNat item }
    .ok (resetFrameSlides s)

/-- `Siema.prepend`. -/
def prepend (s : SiemaState) (item : ℕ) : Except JSError SiemaState :=
  insert s item 0

/-- `Siema.append`. -/
def append (s : SiemaState) (item : ℕ) : Except JSError SiemaState :=
  insert s item ((s.innerElements.length : ℤ) + 1)

/-- `Siema.onChange`: delegate to the registry's `listen`, recording its
synchronous deliveries. -/
def onChange (s : SiemaState) (cb : ℕ) : SiemaState :=
  let p := s.registry.listen cb
  { s with registry := p.1, deliveries := s.deliveries ++ p.2 }

/-- `Siema.closest`: `Array.reduce` with no initial value throws a TypeError
on an empty array, and otherwise folds from the first element, moving to
`curr` only when it is strictly closer to `value`. -/
def closest (value : JSNum) : List JSNum → Except JSError JSNum
  | [] => .error .typeError
  | x :: xs =>
    .ok (xs.foldl
      (fun prev curr =>
        if JSNum.ltB ((curr.sub value).jsAbs) ((prev.sub value).jsAbs) then curr else prev)
      x)

/-- JS `Array.indexOf`: the first index holding a strictly-equal element, and
-1 when there is none. -/
def jsIndexOf (l : List JSNum) (v : JSNum) : ℤ :=
  match l with
  | [] => -1
  | x :: xs =>
    if JSNum.eqB x v then 0
    else
      let r := jsIndexOf xs v
      if r < 0 then -1 else r + 1

/-- `Siema._updateAfterDrag`: compute the unclamped translation of every
slide, pick the one closest to the live translation, make its position the
current slide and slide to it. -/
def updateAfterDrag (m : Measurements) (s : SiemaState) : Except JSError SiemaState := do
  let translations := (List.range s.innerSlides.length).map
    (fun i : ℕ => calculateTranslation m (i : ℤ) false)
  let closestTranslation ← closest s.currentTranslation translations
  let s := setCurrentSlide s (jsIndexOf translations closestTranslation)
  pure (slideToCurrent m s)

/-- `Siema._clearDrag`. -/
def clearDrag (s : SiemaState) : SiemaState :=
  { s with drag :=
      { startingTranslation := .num 0, startX := 0, endX := 0, startY := 0, letItGo := none } }

/-- `Siema._touchstartHandler`. -/
def touchstartHandler (s : SiemaState) (pageX pageY : ℚ) : SiemaState :=
  { s with pointerDown := true, drag := { s.drag with startX := pageX, startY := pageY } }

/-- `Siema._touchendHandler`: resolve the drag only when an end position was
recorded (`this._drag.endX` is truthy). -/
def touchendHandler (m : Measurements) (s : SiemaState) : Except JSError SiemaState := do
  let s := { s with pointerDown := false }
  let s ← if s.drag.endX ≠ 0 then updateAfterDrag m s else pure s
  let s := setTransition s s.duration
  pure (clearDrag s)

/-- `Siema._touchmoveHandler`. -/
def touchmoveHandler (m : Measurements) (s : SiemaState) (pageX pageY : ℚ) : SiemaState :=
  let s := if s.drag.letItGo = none then
      { s with drag := { s.drag with
          letItGo := some (decide (|s.drag.startY - pageY| < |s.drag.startX - pageX|)) } }
    else s
  if s.pointerDown && (s.drag.letItGo == some true) then
    let s := { s with drag := { s.drag with endX := pageX } }
    let s := setTransition s 0
    let translation := (calculateTranslation m s.currentSlide s.stickToEdges).sub
      (.num (s.drag.startX - s.drag.endX))
    setTranslation s translation
  else s

/-- `Siema._mousedownHandler` (the cursor affordance is styling and not
tracked). -/
def mousedownHandler (s : SiemaState) (pageX : ℚ) : SiemaState :=
  { s with pointerDown := true,
           drag := { s.drag with startX := pageX, startingTranslation := s.currentTranslation } }

/-- `Siema._mouseupHandler`: always resolves the nearest slide, whether or
not the pointer ever moved. -/
def mouseupHandler (m : Measurements) (s : SiemaState) : Except JSError SiemaState := do
  let s := { s with pointerDown := false }
  let s := setTransition s s.duration
  let s ← updateAfterDrag m s
  pure (clearDrag s)

/-- `Siema._mousemoveHandler`. -/
def mousemoveHandler (s : SiemaState) (pageX : ℚ) : SiemaState :=
  if s.pointerDown then
    let s := { s with drag := { s.drag with endX := pageX } }
    let translation := s.drag.startingTranslation.sub (.num (s.drag.startX - s.drag.endX))
    let s := setTransition s 0
    setTranslation s translation
  else s

/-- `Siema._mouseleaveHandler`: while the pointer is down it behaves as a
mouse-up after recording the leave position. -/
def mouseleaveHandler (m : Measurements) (s : SiemaState) (pageX : ℚ) :
    Except JSError SiemaState :=
  if s.pointerDown then do
    let s := { s with pointerDown := false, drag := { s.drag with endX := pageX } }
    let s := setTransition s s.duration
    let s ← updateAfterDrag m s
    pure (clearDrag s)
  else pure s

/-- The constructor, for a resolvable selector and the default
`draggable: true`: capture the children, reset the frame, install the neutral
drag record, set the current slide to 0 (which notifies) and slide to it. -/
def initState (items : List ℕ) (stick : Bool) (dur : ℚ) (m : Measurements) : SiemaState :=
  let s : SiemaState := {
    innerElements := items
    innerSlides := []
    currentSlide := 0
    registry := { listeners := [], lastArgs := [] }
    deliveries := []
    currentTranslation := .nan
    translationWrites := 0
    transitionDuration := dur
    pointerDown := false
    drag := { startingTranslation := .nan, startX := 0, endX := 0, startY := 0, letItGo := none }
    stickToEdges := stick
    duration := dur }
  let s := resetFrameSlides s
  let s := setCurrentSlide s 0
  slideToCurrent m s

/-- A sequence of `goTo` calls against fixed measurements. -/
def runGoTos (m : Measurements) (s : SiemaState) (idxs : List ℤ) : SiemaState :=
  idxs.foldl (goTo m) s

end Siema

/-! ## Basic lemmas about the JS helpers -/

lemma foldl_add_eq_add_sum (l : List ℚ) : ∀ a : ℚ, l.foldl (· + ·) a = a + l.sum := by
  induction l with
  | nil => intro a; simp
  | cons x xs ih => intro a; simp [ih, add_assoc]

lemma length_spliceInsert {α : Type} (l : List α) (k : ℕ) (x : α) :
    (spliceInsert l k x).length = l.length + 1 := by
  simp [spliceInsert]
  omega

lemma spliceRemove_spliceInsert {α : Type} (l : List α) (k : ℕ) (x : α) (h : k ≤ l.length) :
    spliceRemove (spliceInsert l k x) k = l := by
  induction k generalizing l with
  | zero => simp [spliceInsert, spliceRemove]
  | succ n ih =>
    cases l with
    | nil => simp at h
    | cons a t =>
      simp only [spliceInsert, spliceRemove, List.take_succ_cons, List.drop_succ_cons,
        List.cons_append]
      have := ih t (by simpa using h)
      simp only [spliceInsert, spliceRemove] at this
      simp [this]

lemma spliceInsert_of_length_le {α : Type} (l : List α) (k : ℕ) (x : α) (h : l.length ≤ k) :
    spliceInsert l k x = l ++ [x] := by
  simp [spliceInsert, List.take_of_length_le h, List.drop_eq_nil_of_le h]

/-- The result of a binary-choice fold is one of the fold's inputs. -/
lemma foldl_choice_mem {α : Type} (p : α → α → Bool) :
    ∀ (xs : List α) (x : α),
      xs.foldl (fun prev curr => if p prev curr then curr else prev) x ∈ x :: xs := by
  intro xs
  induction xs with
  | nil => intro x; simp
  | cons c cs ih =>
    intro x
    have h := ih (if p x c then c else x)
    simp only [List.foldl_cons]
    rcases List.mem_cons.mp h with h1 | h1
    · by_cases hc : p x c
      · rw [h1]
        simp [hc]
      · rw [h1]
        simp [hc]
    · simp [List.mem_cons.mpr (Or.inr (List.mem_cons.mpr (Or.inr h1)))]

lemma closest_ok (v : JSNum) (l : List JSNum) (h : l ≠ []) :
    ∃ r, Siema.closest v l = .ok r ∧ r ∈ l := by
  cases l with
  | nil => exact absurd rfl h
  | cons x xs =>
    refine ⟨_, rfl, ?_⟩
    exact foldl_choice_mem
      (fun prev curr => JSNum.ltB ((curr.sub v).jsAbs) ((prev.sub v).jsAbs)) xs x

lemma jsIndexOf_range (v : JSNum) (hv : JSNum.eqB v v = true) :
    ∀ l : List JSNum, v ∈ l →
      0 ≤ Siema.jsIndexOf l v ∧ Siema.jsIndexOf l v < (l.length : ℤ) := by
  intro l
  induction l with
  | nil => intro h; simp at h
  | cons x xs ih =>
    intro hm
    by_cases hx : JSNum.eqB x v
    · simp [Siema.jsIndexOf, hx]
    · have hvx : v ∈ xs := by
        rcases List.mem_cons.mp hm with h1 | h1
        · rw [← h1] at hx; exact absurd hv hx
        · exact h1
      obtain ⟨h0, hlt⟩ := ih hvx
      simp only [Siema.jsIndexOf, hx, if_false, Bool.false_eq_true]
      rw [if_neg (by omega)]
      simp only [List.length_cons]
      push_cast
      omega

/-! ## The translation calculator on in-range and out-of-range indices -/

/-- The closed form of `_calculateTranslation` at an in-range index. -/
lemma calculateTranslation_inRange (m : Measurements) (i : ℕ) (stick : Bool)
    (h : i < m.widths.length) :
    Siema.calculateTranslation m (i : ℤ) stick =
      JSNum.num (if stick then
          max (min 0 (m.containerWidth - m.frameWidth))
            (min 0 (m.containerWidth / 2 - (m.widths.take i).sum - m.widths.get ⟨i, h⟩ / 2))
        else m.containerWidth / 2 - (m.widths.take i).sum - m.widths.get ⟨i, h⟩ / 2) := by
  have h0 : (0 : ℤ) ≤ (i : ℤ) := Int.natCast_nonneg i
  have hget : m.widths[i]? = some (m.widths.get ⟨i, h⟩) := by
    simp [List.getElem?_eq_getElem h, List.get_eq_getElem]
  cases stick <;>
    simp [Siema.calculateTranslation, jsSliceSum, jsElem, h0, hget, jsClamp,
      JSNum.sub, JSNum.half, JSNum.jsMin, JSNum.jsMax, foldl_add_eq_add_sum, sub_sub]

/-- Past the end of the widths array (the zero-item case included) the
indexed width is undefined, the arithmetic produces NaN and clamping keeps
it. -/
lemma calculateTranslation_outOfRange (m : Measurements) (index : ℤ) (stick : Bool)
    (h : (m.widths.length : ℤ) ≤ index) :
    Siema.calculateTranslation m index stick = JSNum.nan := by
  have h0 : (0 : ℤ) ≤ index := le_trans (Int.natCast_nonneg _) h
  have hnone : m.widths[index.toNat]? = none := by
    apply List.getElem?_eq_none
    omega
  cases stick <;>
    simp [Siema.calculateTranslation, jsSliceSum, jsElem, h0, hnone, jsClamp,
      JSNum.sub, JSNum.half, JSNum.jsMin, JSNum.jsMax]

/-- The unclamped translation at an in-range index is always a finite
number. -/
lemma calculateTranslation_unclamped_num (m : Measurements) (i : ℕ)
    (h : i < m.widths.length) :
    ∃ q : ℚ, Siema.calculateTranslation m (i : ℤ) false = JSNum.num q := by
  exact ⟨_, calculateTranslation_inRange m i false h⟩

/-! ## Field-tracking lemmas for the state transformers -/

namespace Siema

@[simp] lemma setTranslation_innerElements (s : SiemaState) (v : JSNum) :
    (setTranslation s v).innerElements = s.innerElements := rfl
@[simp] lemma setTranslation_innerSlides (s : SiemaState) (v : JSNum) :
    (setTranslation s v).innerSlides = s.innerSlides := rfl
@[simp] lemma setTranslation_currentSlide (s : SiemaState) (v : JSNum) :
    (setTranslation s v).currentSlide = s.currentSlide := rfl
@[simp] lemma setTranslation_registry (s : SiemaState) (v : JSNum) :
    (setTranslation s v).registry = s.registry := rfl
@[simp] lemma setTranslation_deliveries (s : SiemaState) (v : JSNum) :
    (setTranslation s v).deliveries = s.deliveries := rfl
@[simp] lemma setTranslation_currentTranslation (s : SiemaState) (v : JSNum) :
    (setTranslation s v).currentTranslation = v := rfl
@[simp] lemma setTranslation_translationWrites (s : SiemaState) (v : JSNum) :
    (setTranslation s v).translationWrites = s.translationWrites + 1 := rfl

@[simp] lemma setTransition_innerElements (s : SiemaState) (d : ℚ) :
    (setTransition s d).innerElements = s.innerElements := rfl
@[simp] lemma setTransition_innerSlides (s : SiemaState) (d : ℚ) :
    (setTransition s d).innerSlides = s.innerSlides := rfl
@[simp] lemma setTransition_currentSlide (s : SiemaState) (d : ℚ) :
    (setTransition s d).currentSlide = s.currentSlide := rfl
@[simp] lemma setTransition_registry (s : SiemaState) (d : ℚ) :
    (setTransition s d).registry = s.registry := rfl
@[simp] lemma setTransition_deliveries (s : SiemaState) (d : ℚ) :
    (setTransition s d).deliveries = s.deliveries := rfl
@[simp] lemma setTransition_currentTranslation (s : SiemaState) (d : ℚ) :
    (setTransition s d).currentTranslation = s.currentTranslation := rfl
@[simp] lemma setTransition_translationWrites (s : SiemaState) (d : ℚ) :
    (setTransition s d).translationWrites = s.translationWrites := rfl
@[simp] lemma setTransition_drag (s : SiemaState) (d : ℚ) :
    (setTransition s d).drag = s.drag := rfl
@[simp] lemma setTransition_duration (s : SiemaState) (d : ℚ) :
    (setTransition s d).duration = s.duration := rfl
@[simp] lemma setTransition_stickToEdges (s : SiemaState) (d : ℚ) :
    (setTransition s d).stickToEdges = s.stickToEdges := rfl

@[simp] lemma setCurrentSlide_innerElements (s : SiemaState) (i : ℤ) :
    (setCurrentSlide s i).innerElements = s.innerElements := rfl
@[simp] lemma setCurrentSlide_innerSlides (s : SiemaState) (i : ℤ) :
    (setCurrentSlide s i).innerSlides = s.innerSlides := rfl
@[simp] lemma setCurrentSlide_currentSlide (s : SiemaState) (i : ℤ) :
    (setCurrentSlide s i).currentSlide = i := rfl
@[simp] lemma setCurrentSlide_listeners (s : SiemaState) (i : ℤ) :
    (setCurrentSlide s i).registry.listeners = s.registry.listeners := rfl
@[simp] lemma setCurrentSlide_lastArgs (s : SiemaState) (i : ℤ) :
    (setCurrentSlide s i).registry.lastArgs = [i] := rfl
@[simp] lemma setCurrentSlide_deliveries (s : SiemaState) (i : ℤ) :
    (setCurrentSlide s i).deliveries
      = s.deliveries ++ s.registry.listeners.map (fun l => (l, [i])) := rfl
@[simp] lemma setCurrentSlide_currentTranslation (s : SiemaState) (i : ℤ) :
    (setCurrentSlide s i).currentTranslation = s.currentTranslation := rfl
@[simp] lemma setCurrentSlide_translationWrites (s : SiemaState) (i : ℤ) :
    (setCurrentSlide s i).translationWrites = s.translationWrites := rfl
@[simp] lemma setCurrentSlide_stickToEdges (s : SiemaState) (i : ℤ) :
    (setCurrentSlide s i).stickToEdges = s.stickToEdges := rfl
@[simp] lemma setCurrentSlide_duration (s : SiemaState) (i : ℤ) :
    (setCurrentSlide s i).duration = s.duration := rfl
@[simp] lemma setCurrentSlide_drag (s : SiemaState) (i : ℤ) :
    (setCurrentSlide s i).drag = s.drag := rfl

@[simp] lemma resetFrameSlides_innerElements (s : SiemaState) :
    (resetFrameSlides s).innerElements = s.innerElements := rfl
@[simp] lemma resetFrameSlides_innerSlides (s : SiemaState) :
    (resetFrameSlides s).innerSlides = s.innerElements := rfl
@[simp] lemma resetFrameSlides_currentSlide (s : SiemaState) :
    (resetFrameSlides s).currentSlide = s.currentSlide := rfl
@[simp] lemma resetFrameSlides_registry (s : SiemaState) :
    (resetFrameSlides s).registry = s.registry := rfl
@[simp] lemma resetFrameSlides_deliveries (s : SiemaState) :
    (resetFrameSlides s).deliveries = s.deliveries := rfl

@[simp] lemma slideToIndex_currentSlide (m : Measurements) (s : SiemaState) (i : ℤ) :
    (slideToIndex m s i).currentSlide = s.currentSlide := rfl
@[simp] lemma slideToIndex_innerElements (m : Measurements) (s : SiemaState) (i : ℤ) :
    (slideToIndex m s i).innerElements = s.innerElements := rfl
@[simp] lemma slideToIndex_innerSlides (m : Measurements) (s : SiemaState) (i : ℤ) :
    (slideToIndex m s i).innerSlides = s.innerSlides := rfl
@[simp] lemma slideToIndex_registry (m : Measurements) (s : SiemaState) (i : ℤ) :
    (slideToIndex m s i).registry = s.registry := rfl
@[simp] lemma slideToIndex_deliveries (m : Measurements) (s : SiemaState) (i : ℤ) :
    (slideToIndex m s i).deliveries = s.deliveries := rfl
@[simp] lemma slideToIndex_translationWrites (m : Measurements) (s : SiemaState) (i : ℤ) :
    (slideToIndex m s i).translationWrites = s.translationWrites + 1 := rfl

@[simp] lemma clearDrag_currentSlide (s : SiemaState) :
    (clearDrag s).currentSlide = s.currentSlide := rfl
@[simp] lemma clearDrag_innerElements (s : SiemaState) :
    (clearDrag s).innerElements = s.innerElements := rfl
@[simp] lemma clearDrag_innerSlides (s : SiemaState) :
    (clearDrag s).innerSlides = s.innerSlides := rfl
@[simp] lemma clearDrag_registry (s : SiemaState) :
    (clearDrag s).registry = s.registry := rfl
@[simp] lemma clearDrag_deliveries (s : SiemaState) :
    (clearDrag s).deliveries = s.deliveries := rfl
@[simp] lemma clearDrag_currentTranslation (s : SiemaState) :
    (clearDrag s).currentTranslation = s.currentTranslation := rfl
@[simp] lemma clearDrag_translationWrites (s : SiemaState) :
    (clearDrag s).translationWrites = s.translationWrites := rfl

end Siema

/-! ## Characterising goTo, initState and updateAfterDrag -/

namespace Siema

lemma goTo_of_clamp_eq (m : Measurements) (s : SiemaState) (index : ℤ)
    (h : jsClampInt index 0 s.innerElements.length = s.currentSlide) :
    goTo m s index = setCurrentSlide s s.currentSlide := by
  simp [goTo, h]

lemma goTo_of_clamp_ne (m : Measurements) (s : SiemaState) (index : ℤ)
    (h : jsClampInt index 0 s.innerElements.length ≠ s.currentSlide) :
    goTo m s index
      = slideToCurrent m (setCurrentSlide s (jsClampInt index 0 s.innerElements.length)) := by
  unfold goTo
  simp only [setCurrentSlide_currentSlide]
  rw [if_pos (Ne.symm h)]

@[simp] lemma goTo_currentSlide (m : Measurements) (s : SiemaState) (index : ℤ) :
    (goTo m s index).currentSlide = jsClampInt index 0 s.innerElements.length := by
  by_cases h : jsClampInt index 0 s.innerElements.length = s.currentSlide
  · rw [goTo_of_clamp_eq m s index h, setCurrentSlide_currentSlide, h]
  · rw [goTo_of_clamp_ne m s index h]
    simp [slideToCurrent]

@[simp] lemma goTo_innerElements (m : Measurements) (s : SiemaState) (index : ℤ) :
    (goTo m s index).innerElements = s.innerElements := by
  by_cases h : jsClampInt index 0 s.innerElements.length = s.currentSlide
  · rw [goTo_of_clamp_eq m s index h]; simp
  · rw [goTo_of_clamp_ne m s index h]; simp [slideToCurrent]

@[simp] lemma goTo_innerSlides (m : Measurements) (s : SiemaState) (index : ℤ) :
    (goTo m s index).innerSlides = s.innerSlides := by
  by_cases h : jsClampInt index 0 s.innerElements.length = s.currentSlide
  · rw [goTo_of_clamp_eq m s index h]; simp
  · rw [goTo_of_clamp_ne m s index h]; simp [slideToCurrent]

@[simp] lemma goTo_lastArgs (m : Measurements) (s : SiemaState) (index : ℤ) :
    (goTo m s index).registry.lastArgs = [jsClampInt index 0 s.innerElements.length] := by
  by_cases h : jsClampInt index 0 s.innerElements.length = s.currentSlide
  · rw [goTo_of_clamp_eq m s index h, h]
    simp
  · rw [goTo_of_clamp_ne m s index h]
    simp [slideToCurrent]

@[simp] lemma goTo_listeners (m : Measurements) (s : SiemaState) (index : ℤ) :
    (goTo m s index).registry.listeners = s.registry.listeners := by
  by_cases h : jsClampInt index 0 s.innerElements.length = s.currentSlide
  · rw [goTo_of_clamp_eq m s index h]; simp
  · rw [goTo_of_clamp_ne m s index h]; simp [slideToCurrent]

lemma goTo_deliveries (m : Measurements) (s : SiemaState) (index : ℤ) :
    (goTo m s index).deliveries = s.deliveries
      ++ s.registry.listeners.map (fun l => (l, [jsClampInt index 0 s.innerElements.length])) := by
  by_cases h : jsClampInt index 0 s.innerElements.length = s.currentSlide
  · rw [goTo_of_clamp_eq m s index h, h]
    simp
  · rw [goTo_of_clamp_ne m s index h]
    simp [slideToCurrent]

lemma jsClampInt_bounds (v : ℤ) (n : ℕ) :
    0 ≤ jsClampInt v 0 (n : ℤ) ∧ jsClampInt v 0 (n : ℤ) ≤ (n : ℤ) := by
  unfold jsClampInt
  constructor
  · exact le_max_left 0 _
  · exact max_le (Int.natCast_nonneg n) (min_le_left _ _)

@[simp] lemma initState_currentSlide (items : List ℕ) (stick : Bool) (dur : ℚ)
    (m : Measurements) : (initState items stick dur m).currentSlide = 0 := rfl
@[simp] lemma initState_innerElements (items : List ℕ) (stick : Bool) (dur : ℚ)
    (m : Measurements) : (initState items stick dur m).innerElements = items := rfl
@[simp] lemma initState_innerSlides (items : List ℕ) (stick : Bool) (dur : ℚ)
    (m : Measurements) : (initState items stick dur m).innerSlides = items := rfl
@[simp] lemma initState_lastArgs (items : List ℕ) (stick : Bool) (dur : ℚ)
    (m : Measurements) : (initState items stick dur m).registry.lastArgs = [0] := rfl
@[simp] lemma initState_listeners (items : List ℕ) (stick : Bool) (dur : ℚ)
    (m : Measurements) : (initState items stick dur m).registry.listeners = [] := rfl
@[simp] lemma initState_deliveries (items : List ℕ) (stick : Bool) (dur : ℚ)
    (m : Measurements) : (initState items stick dur m).deliveries = [] := rfl

/-- Full behaviour of `_updateAfterDrag` with at least one slide: it returns
normally, performs exactly one translation write, notifies every listener
once, leaves the slide lists alone, and — when the render surface reports one
width per slide, as `_calculateTranslation` measures them — lands on an index
in `[0, slideCount)`. -/
lemma updateAfterDrag_spec (m : Measurements) (s : SiemaState) (h : s.innerSlides ≠ []) :
    ∃ s', updateAfterDrag m s = .ok s' ∧
      s'.translationWrites = s.translationWrites + 1 ∧
      s'.deliveries.length = s.deliveries.length + s.registry.listeners.length ∧
      s'.innerSlides = s.innerSlides ∧
      s'.innerElements = s.innerElements ∧
      (m.widths.length = s.innerSlides.length →
        0 ≤ s'.currentSlide ∧ s'.currentSlide < (s.innerSlides.length : ℤ)) := by
  have hlen : (List.range s.innerSlides.length).map
      (fun i : ℕ => calculateTranslation m (i : ℤ) false) ≠ [] := by
    intro hc
    have : s.innerSlides.length = 0 := by simpa [List.range_eq_nil] using hc
    exact h (List.length_eq_zero.mp this)
  obtain ⟨r, hr, hmem⟩ := closest_ok s.currentTranslation _ hlen
  refine ⟨slideToCurrent m (setCurrentSlide s
    (jsIndexOf ((List.range s.innerSlides.length).map
      (fun i : ℕ => calculateTranslation m (i : ℤ) false)) r)), ?_, ?_, ?_, ?_, ?_, ?_⟩
  · simp only [updateAfterDrag]
    rw [hr]
    rfl
  · simp [slideToCurrent]
  · simp [slideToCurrent]
  · simp [slideToCurrent]
  · simp [slideToCurrent]
  · intro hw
    obtain ⟨i, hi, hfi⟩ := List.mem_map.mp hmem
    have hiLt : i < m.widths.length := by
      rw [hw]
      exact List.mem_range.mp hi
    obtain ⟨q, hq⟩ := calculateTranslation_unclamped_num m i hiLt
    have hvv : JSNum.eqB r r = true := by
      rw [← hfi, hq]
      simp [JSNum.eqB]
    have := jsIndexOf_range r hvv _ hmem
    simpa [slideToCurrent, List.length_map, List.length_range] using this

end Siema

/-! ## Success-case characterisation of insert and remove -/

lemma insert_ok_spec (s : SiemaState) (item : ℕ) (index : ℤ) (s' : SiemaState)
    (hok : Siema.insert s item index = .ok s') :
    s'.currentSlide = (if index ≤ s.currentSlide then s.currentSlide + 1 else s.currentSlide) ∧
    s'.innerElements = spliceInsert s.innerElements index.toNat item ∧
    0 ≤ index ∧ index ≤ (s.innerElements.length : ℤ) + 1 ∧ item ∉ s.innerElements := by
  unfold Siema.insert at hok
  split at hok
  · cases hok
  · split at hok
    · cases hok
    · rename_i hrange hdup
      cases hok
      push_neg at hrange
      refine ⟨by simp, by simp, hrange.1, by omega, hdup⟩

lemma remove_ok_spec (s : SiemaState) (index : ℤ) (s' : SiemaState)
    (hok : Siema.remove s index = .ok s') :
    s'.currentSlide = (if index ≤ s.currentSlide then s.currentSlide - 1 else s.currentSlide) ∧
    s'.innerElements = spliceRemove s.innerElements index.toNat ∧
    0 ≤ index ∧ index < (s.innerElements.length : ℤ) := by
  unfold Siema.remove at hok
  split at hok
  · cases hok
  · rename_i hrange
    cases hok
    push_neg at hrange
    exact ⟨by simp, by simp, hrange.1, hrange.2⟩

/-! ## Concrete fixtures used by counterexamples and witnesses -/

/-- Three 100px slides in a 300px container whose frame is also 300px. -/
def mFix : Measurements := { containerWidth := 300, frameWidth := 300, widths := [100, 100, 100] }

/-- A freshly constructed carousel over three items. -/
def sInit : SiemaState := Siema.initState [10, 20, 30] true 200 mFix

/-- The same carousel with one subscriber (callback 7) registered. -/
def sFix : SiemaState := Siema.onChange sInit 7

/-- The subscribed carousel immediately after a mouse-down at x = 50, before
any movement. -/
def sDrag : SiemaState := Siema.mousedownHandler sFix 50

/-- A single 100px slide in a 300px container with a 100px frame. -/
def mOne : Measurements := { containerWidth := 300, frameWidth := 100, widths := [100] }

/-- A freshly constructed carousel over one item. -/
def sOne : SiemaState := Siema.initState [5] true 200 mOne

/-- Measurements of an empty carousel. -/
def mEmpty : Measurements := { containerWidth := 300, frameWidth := 0, widths := [] }

/-- A freshly constructed carousel over zero items. -/
def sEmpty : SiemaState := Siema.initState [] true 200 mEmpty

/-- The one-item carousel after `insert(6, 2)`, an insertion at index
`itemCount + 1`. -/
def sPastEnd : SiemaState := (Siema.insert sOne 6 2).toOption.getD sOne

/-- The one-item carousel after `insert(6, 0)`. -/
def sInsFront : SiemaState := (Siema.insert sOne 6 0).toOption.getD sOne

/-- The one-item carousel after `remove(0)`. -/
def sRemNeg : SiemaState := (Siema.remove sOne 0).toOption.getD sOne

deriving instance DecidableEq for Except

/-! ## C1 -/

/-- C1: for every item count, every index in `[0, n-1]`, every container
width, frame width and width list, `_calculateTranslation` returns
`containerWidth/2 - (sum of widths before the index) - widths[index]/2`;
with `stickToEdges` the value is clamped into
`[min(0, containerWidth - frameWidth), 0]`, and without it it is returned
unclamped. -/
theorem C1_translation_formula (m : Measurements) (i : ℕ) (stick : Bool)
    (h : i < m.widths.length) :
    Siema.calculateTranslation m (i : ℤ) stick =
      JSNum.num (if stick then
          max (min 0 (m.containerWidth - m.frameWidth))
            (min 0 (m.containerWidth / 2 - (m.widths.take i).sum - m.widths.get ⟨i, h⟩ / 2))
        else m.containerWidth / 2 - (m.widths.take i).sum - m.widths.get ⟨i, h⟩ / 2) :=
  calculateTranslation_inRange m i stick h

/-- Witness for C1 at the middle slide of the three-slide fixture. -/
theorem C1_translation_formula_witness :
    Siema.calculateTranslation mFix ((1 : ℕ) : ℤ) true = JSNum.num 0 := by
  rw [C1_translation_formula mFix 1 true (by decide)]
  norm_num [mFix, min_def, max_def]

/-! ## C5 -/

/-- C5 counterexample: with zero items the calculator does not return 0 — the
width read `widths[0]` is undefined, so the result is NaN. -/
theorem C5_degenerate_counterexample :
    Siema.calculateTranslation mEmpty 0 true = JSNum.nan ∧ JSNum.nan ≠ JSNum.num 0 := by
  exact ⟨by decide, by decide⟩

/-- C5 amended: the translation calculator never throws on degenerate input,
but it does not return 0 with zero items, nor treat the width at
`targetIndex = itemCount` as 0: in both cases `widths[index]` is undefined,
the arithmetic yields NaN, and clamping preserves it, so the result is NaN. -/
theorem C5_degenerate_amended (m : Measurements) (index : ℤ) (stick : Bool)
    (h : (m.widths.length : ℤ) ≤ index) :
    Siema.calculateTranslation m index stick = JSNum.nan :=
  calculateTranslation_outOfRange m index stick h

/-- Witness for C5 one past the end of the single-slide fixture. -/
theorem C5_degenerate_amended_witness :
    Siema.calculateTranslation mOne 1 true = JSNum.nan :=
  C5_degenerate_amended mOne 1 true (by decide)

/-! ## C9 -/

/-- C9 (code bug): the handle returned by `listen`/`onChange` never removes
the callback — it always throws a TypeError, because it invokes
`this._listeners.remove(callback)` and a JS Set has no `remove` method (the
removal method is `delete`).  Evaluated over every registry state and every
callback. -/
theorem C9_unsubscribe_always_throws (r : CachedEventRegistry) (cb : ℕ) :
    CachedEventRegistry.unsubscribe r cb = .error .typeError := by
  unfold CachedEventRegistry.unsubscribe
  rw [if_neg (by decide)]

/-! ## C2 -/

/-- C2 counterexample: `goTo` with the already-current index is not a
complete no-op — `_setCurrentSlide` runs unconditionally, so the (unchanged)
index is still published to the subscriber even though no translation
recompute happens. -/
theorem C2_no_op_counterexample :
    jsClampInt 0 0 sFix.innerElements.length = sFix.currentSlide ∧
    sFix.deliveries = [(7, [0])] ∧
    (Siema.goTo mFix sFix 0).deliveries = [(7, [0]), (7, [0])] := by
  refine ⟨by decide, by decide, by decide⟩

/-- C2 amended: when the clamped index equals the existing CurrentIndex,
`goTo` performs no translation recompute but still publishes the unchanged
CurrentIndex to every subscriber; when it differs, CurrentIndex is set, the
translation is recomputed once, and the new CurrentIndex is published. -/
theorem C2_goTo_amended (m : Measurements) (s : SiemaState) (index : ℤ) :
    (jsClampInt index 0 s.innerElements.length = s.currentSlide →
      (Siema.goTo m s index).currentSlide = s.currentSlide ∧
      (Siema.goTo m s index).translationWrites = s.translationWrites ∧
      (Siema.goTo m s index).deliveries.length
        = s.deliveries.length + s.registry.listeners.length ∧
      (Siema.goTo m s index).registry.lastArgs = [s.currentSlide]) ∧
    (jsClampInt index 0 s.innerElements.length ≠ s.currentSlide →
      (Siema.goTo m s index).currentSlide = jsClampInt index 0 s.innerElements.length ∧
      (Siema.goTo m s index).translationWrites = s.translationWrites + 1 ∧
      (Siema.goTo m s index).deliveries.length
        = s.deliveries.length + s.registry.listeners.length ∧
      (Siema.goTo m s index).registry.lastArgs
        = [jsClampInt index 0 s.innerElements.length]) := by
  constructor
  · intro h
    rw [Siema.goTo_of_clamp_eq m s index h]
    exact ⟨by simp, by simp, by simp, by simp⟩
  · intro h
    rw [Siema.goTo_of_clamp_ne m s index h]
    exact ⟨by simp [Siema.slideToCurrent], by simp [Siema.slideToCurrent],
      by simp [Siema.slideToCurrent], by simp [Siema.slideToCurrent]⟩

/-- Witness for C2: both branches at the three-slide fixture. -/
theorem C2_goTo_amended_witness :
    (Siema.goTo mFix sFix 0).translationWrites = sFix.translationWrites ∧
    (Siema.goTo mFix sFix 2).currentSlide = 2 := by
  constructor
  · exact ((C2_goTo_amended mFix sFix 0).1 (by decide)).2.1
  · exact (((C2_goTo_amended mFix sFix 2).2 (by decide)).1).trans (by decide)

/-! ## C3 -/

/-- The CurrentIndex bounds invariant `0 ≤ CurrentIndex ≤ itemCount`. -/
def IndexInv (s : SiemaState) : Prop :=
  0 ≤ s.currentSlide ∧ s.currentSlide ≤ (s.innerElements.length : ℤ)

lemma length_spliceRemove {α : Type} (l : List α) (k : ℕ) (h : k < l.length) :
    (spliceRemove l k).length = l.length - 1 := by
  simp [spliceRemove]
  omega

lemma goTo_indexInv (m : Measurements) (s : SiemaState) (index : ℤ) :
    IndexInv (Siema.goTo m s index) := by
  unfold IndexInv
  rw [Siema.goTo_currentSlide, Siema.goTo_innerElements]
  exact Siema.jsClampInt_bounds index s.innerElements.length

/-- C3 counterexample: removing index 0 while CurrentIndex is 0 leaves
CurrentIndex at -1 — the decrement in `remove` has no lower clamp. -/
theorem C3_remove_counterexample :
    (Siema.remove sOne 0).map SiemaState.currentSlide = Except.ok (-1) := by
  decide

/-- C3 amended: construction, `goTo`, `moveBy`, `next`, `prev` and `insert`
all leave `0 ≤ CurrentIndex ≤ itemCount`; `remove` of an index at or before
CurrentIndex decrements CurrentIndex with no lower clamp, so the invariant
survives every successful `remove` except removing index 0 while
CurrentIndex is 0, which leaves CurrentIndex at -1. -/
theorem C3_bounds_amended :
    (∀ (items : List ℕ) (stick : Bool) (dur : ℚ) (m : Measurements),
      IndexInv (Siema.initState items stick dur m)) ∧
    (∀ (m : Measurements) (s : SiemaState) (index : ℤ), IndexInv (Siema.goTo m s index)) ∧
    (∀ (m : Measurements) (s : SiemaState) (d : ℤ), IndexInv (Siema.moveBy m s d)) ∧
    (∀ (m : Measurements) (s : SiemaState) (d : ℤ), IndexInv (Siema.next m s d)) ∧
    (∀ (m : Measurements) (s : SiemaState) (d : ℤ), IndexInv (Siema.prev m s d)) ∧
    (∀ (s : SiemaState) (item : ℕ) (index : ℤ) (s' : SiemaState), IndexInv s →
      Siema.insert s item index = .ok s' → IndexInv s') ∧
    (∀ (s : SiemaState) (index : ℤ) (s' : SiemaState), IndexInv s →
      Siema.remove s index = .ok s' →
      (¬(index = 0 ∧ s.currentSlide = 0) → IndexInv s') ∧
      (index = 0 ∧ s.currentSlide = 0 → s'.currentSlide = -1)) := by
  refine ⟨?_, ?_, ?_, ?_, ?_, ?_, ?_⟩
  · intro items stick dur m
    exact ⟨le_refl 0, by simp⟩
  · intro m s index
    exact goTo_indexInv m s index
  · intro m s d
    exact goTo_indexInv m s _
  · intro m s d
    exact goTo_indexInv m s _
  · intro m s d
    exact goTo_indexInv m s _
  · intro s item index s' hInv hok
    obtain ⟨hc, he, h0, hle, _⟩ := insert_ok_spec s item index s' hok
    obtain ⟨h1, h2⟩ := hInv
    have hlen : s'.innerElements.length = s.innerElements.length + 1 := by
      rw [he, length_spliceInsert]
    unfold IndexInv
    rw [hc, hlen]
    split_ifs <;> constructor <;> omega
  · intro s index s' hInv hok
    obtain ⟨hc, he, h0, hlt⟩ := remove_ok_spec s index s' hok
    obtain ⟨h1, h2⟩ := hInv
    have hkn : index.toNat < s.innerElements.length := by omega
    have hlen : s'.innerElements.length = s.innerElements.length - 1 := by
      rw [he, length_spliceRemove s.innerElements index.toNat hkn]
    constructor
    · intro hne
      rcases not_and_or.mp hne with hni | hnc
      · unfold IndexInv
        rw [hc, hlen]
        split_ifs <;> constructor <;> omega
      · unfold IndexInv
        rw [hc, hlen]
        split_ifs <;> constructor <;> omega
    · rintro ⟨hi0, hcc⟩
      rw [hc, hi0, hcc]
      norm_num

/-- Witness for C3: the insert and remove components at one-item fixtures. -/
theorem C3_bounds_amended_witness :
    IndexInv sInsFront ∧ sRemNeg.currentSlide = -1 := by
  constructor
  · exact C3_bounds_amended.2.2.2.2.2.1 sOne 6 0 sInsFront ⟨by decide, by decide⟩ (by decide)
  · exact (C3_bounds_amended.2.2.2.2.2.2 sOne 0 sRemNeg ⟨by decide, by decide⟩ (by decide)).2
      ⟨rfl, by decide⟩

/-! ## C4 -/

/-- C4: `insert` fails exactly when the index is outside `[0, itemCount+1]`
(range error) or the item is already present under identity comparison
(duplicate error, checked second), and `remove` fails exactly when the index
is outside `[0, itemCount)`; both checks run before any state change, so a
failing call leaves the ItemSet and CurrentIndex untouched (the error is
returned before any mutation). -/
theorem C4_insert_remove_failures :
    (∀ (s : SiemaState) (item : ℕ) (index : ℤ),
      (index < 0 ∨ (s.innerElements.length : ℤ) + 1 < index) →
      Siema.insert s item index = .error .insertIndexError) ∧
    (∀ (s : SiemaState) (item : ℕ) (index : ℤ),
      0 ≤ index → index ≤ (s.innerElements.length : ℤ) + 1 → item ∈ s.innerElements →
      Siema.insert s item index = .error .duplicateItemError) ∧
    (∀ (s : SiemaState) (item : ℕ) (index : ℤ),
      0 ≤ index → index ≤ (s.innerElements.length : ℤ) + 1 → item ∉ s.innerElements →
      ∃ s', Siema.insert s item index = .ok s') ∧
    (∀ (s : SiemaState) (index : ℤ),
      (index < 0 ∨ (s.innerElements.length : ℤ) ≤ index) →
      Siema.remove s index = .error .removeIndexError) ∧
    (∀ (s : SiemaState) (index : ℤ),
      0 ≤ index → index < (s.innerElements.length : ℤ) →
      ∃ s', Siema.remove s index = .ok s') := by
  refine ⟨?_, ?_, ?_, ?_, ?_⟩
  · intro s item index h
    unfold Siema.insert
    rw [if_pos h]
  · intro s item index h0 h1 hmem
    unfold Siema.insert
    rw [if_neg (by omega), if_pos hmem]
  · intro s item index h0 h1 hmem
    exact ⟨_, by unfold Siema.insert; rw [if_neg (by omega), if_neg hmem]⟩
  · intro s index h
    unfold Siema.remove
    rw [if_pos h]
  · intro s index h0 h1
    exact ⟨_, by unfold Siema.remove; rw [if_neg (by omega)]⟩

/-- Witness for C4 at the one-item fixture. -/
theorem C4_insert_remove_failures_witness :
    Siema.insert sOne 6 3 = .error .insertIndexError ∧
    Siema.insert sOne 5 0 = .error .duplicateItemError ∧
    (Siema.insert sOne 6 1).toOption.isSome = true ∧
    Siema.remove sOne 1 = .error .removeIndexError ∧
    (Siema.remove sOne 0).toOption.isSome = true := by
  refine ⟨?_, ?_, ?_, ?_, ?_⟩
  · exact C4_insert_remove_failures.1 sOne 6 3 (by decide)
  · exact C4_insert_remove_failures.2.1 sOne 5 0 (by decide) (by decide) (by decide)
  · obtain ⟨s', hs⟩ :=
      C4_insert_remove_failures.2.2.1 sOne 6 1 (by decide) (by decide) (by decide)
    rw [hs]
    rfl
  · exact C4_insert_remove_failures.2.2.2.1 sOne 1 (by decide)
  · obtain ⟨s', hs⟩ := C4_insert_remove_failures.2.2.2.2 sOne 0 (by decide) (by decide)
    rw [hs]
    rfl

/-! ## Drag-release handler behaviour -/

lemma updateAfterDrag_empty (m : Measurements) (s : SiemaState) (h : s.innerSlides = []) :
    Siema.updateAfterDrag m s = .error .typeError := by
  simp only [Siema.updateAfterDrag, h]
  rfl

lemma mouseupHandler_spec (m : Measurements) (s : SiemaState) (h : s.innerSlides ≠ []) :
    ∃ s', Siema.mouseupHandler m s = .ok s' ∧
      s'.translationWrites = s.translationWrites + 1 ∧
      s'.deliveries.length = s.deliveries.length + s.registry.listeners.length ∧
      (m.widths.length = s.innerSlides.length →
        0 ≤ s'.currentSlide ∧ s'.currentSlide < (s.innerSlides.length : ℤ)) := by
  obtain ⟨t, hok, hw, hd, hsl, hel, hrange⟩ := Siema.updateAfterDrag_spec m
    (Siema.setTransition { s with pointerDown := false }
      ({ s with pointerDown := false } : SiemaState).duration) (by simpa using h)
  refine ⟨Siema.clearDrag t, ?_, ?_, ?_, ?_⟩
  · simp only [Siema.mouseupHandler]
    rw [hok]
    rfl
  · simpa using hw
  · simpa using hd
  · intro hwidths
    have := hrange (by simpa using hwidths)
    simpa using this

lemma mouseupHandler_empty (m : Measurements) (s : SiemaState) (h : s.innerSlides = []) :
    Siema.mouseupHandler m s = .error .typeError := by
  have he := updateAfterDrag_empty m
    (Siema.setTransition { s with pointerDown := false }
      ({ s with pointerDown := false } : SiemaState).duration) (by simpa using h)
  simp only [Siema.mouseupHandler]
  rw [he]
  rfl

lemma mouseleaveHandler_spec (m : Measurements) (s : SiemaState) (pageX : ℚ)
    (hp : s.pointerDown = true) (h : s.innerSlides ≠ []) :
    ∃ s', Siema.mouseleaveHandler m s pageX = .ok s' ∧
      s'.translationWrites = s.translationWrites + 1 ∧
      s'.deliveries.length = s.deliveries.length + s.registry.listeners.length ∧
      (m.widths.length = s.innerSlides.length →
        0 ≤ s'.currentSlide ∧ s'.currentSlide < (s.innerSlides.length : ℤ)) := by
  obtain ⟨t, hok, hw, hd, hsl, hel, hrange⟩ := Siema.updateAfterDrag_spec m
    (Siema.setTransition
      { s with pointerDown := false, drag := { s.drag with endX := pageX } }
      ({ s with pointerDown := false, drag := { s.drag with endX := pageX } } :
        SiemaState).duration) (by simpa using h)
  refine ⟨Siema.clearDrag t, ?_, ?_, ?_, ?_⟩
  · simp only [Siema.mouseleaveHandler, hp, if_true]
    rw [hok]
    rfl
  · simpa using hw
  · simpa using hd
  · intro hwidths
    have := hrange (by simpa using hwidths)
    simpa using this

lemma mouseleaveHandler_empty (m : Measurements) (s : SiemaState) (pageX : ℚ)
    (hp : s.pointerDown = true) (h : s.innerSlides = []) :
    Siema.mouseleaveHandler m s pageX = .error .typeError := by
  have he := updateAfterDrag_empty m
    (Siema.setTransition
      { s with pointerDown := false, drag := { s.drag with endX := pageX } }
      ({ s with pointerDown := false, drag := { s.drag with endX := pageX } } :
        SiemaState).duration) (by simpa using h)
  simp only [Siema.mouseleaveHandler, hp, if_true]
  rw [he]
  rfl

lemma touchendHandler_move_spec (m : Measurements) (s : SiemaState)
    (hx : s.drag.endX ≠ 0) (h : s.innerSlides ≠ []) :
    ∃ s', Siema.touchendHandler m s = .ok s' ∧
      s'.translationWrites = s.translationWrites + 1 ∧
      s'.deliveries.length = s.deliveries.length + s.registry.listeners.length ∧
      (m.widths.length = s.innerSlides.length →
        0 ≤ s'.currentSlide ∧ s'.currentSlide < (s.innerSlides.length : ℤ)) := by
  obtain ⟨t, hok, hw, hd, hsl, hel, hrange⟩ := Siema.updateAfterDrag_spec m
    { s with pointerDown := false } (by simpa using h)
  refine ⟨Siema.clearDrag (Siema.setTransition t t.duration), ?_, ?_, ?_, ?_⟩
  · simp only [Siema.touchendHandler]
    rw [if_pos (by simpa using hx), hok]
    rfl
  · simpa using hw
  · simpa using hd
  · intro hwidths
    have := hrange (by simpa using hwidths)
    simpa using this

lemma touchendHandler_move_empty (m : Measurements) (s : SiemaState)
    (hx : s.drag.endX ≠ 0) (h : s.innerSlides = []) :
    Siema.touchendHandler m s = .error .typeError := by
  have he := updateAfterDrag_empty m { s with pointerDown := false } (by simpa using h)
  simp only [Siema.touchendHandler]
  rw [if_pos (by simpa using hx), he]
  rfl

lemma touchendHandler_noMove (m : Measurements) (s : SiemaState) (hx : s.drag.endX = 0) :
    Siema.touchendHandler m s
      = .ok (Siema.clearDrag (Siema.setTransition { s with pointerDown := false }
          ({ s with pointerDown := false } : SiemaState).duration)) := by
  simp only [Siema.touchendHandler]
  rw [if_neg (by simp [hx])]
  rfl

/-! ## C6 -/

set_option maxHeartbeats 1000000 in
/-- C6 counterexample: a mouse gesture that never moved (no recorded end
position) is not a no-op tap — `_mouseupHandler` runs `_updateAfterDrag`
unconditionally, so nearest-slide resolution runs, a notification is
delivered to the subscriber, and in this fixture CurrentIndex even changes
from 0 to 1. -/
theorem C6_tap_counterexample :
    sDrag.drag.endX = 0 ∧ sDrag.currentSlide = 0 ∧
    (Siema.mouseupHandler mFix sDrag).map SiemaState.currentSlide = Except.ok 1 ∧
    (Siema.mouseupHandler mFix sDrag).map Siema.deliveryCount
      = Except.ok (Siema.deliveryCount sDrag + 1) := by
  refine ⟨by decide, by decide, ?_, ?_⟩ <;>
    norm_num [Siema.mouseupHandler, Siema.updateAfterDrag, Siema.setTransition,
      Siema.setCurrentSlide, Siema.slideToCurrent, Siema.slideToIndex, Siema.setTranslation,
      Siema.clearDrag, Siema.closest, Siema.jsIndexOf, Siema.calculateTranslation,
      Siema.deliveryCount, jsSliceSum, jsElem, jsClamp, JSNum.sub, JSNum.half, JSNum.jsAbs,
      JSNum.jsMin, JSNum.jsMax, JSNum.ltB, JSNum.eqB, mFix, sDrag, sFix, sInit,
      Siema.initState, Siema.onChange, Siema.mousedownHandler, Siema.resetFrameSlides,
      CachedEventRegistry.listen, CachedEventRegistry.notify, List.range_succ,
      Except.map, min_def, max_def]

/-- C6 amended: a touch gesture that ends without a recorded end position is
a no-op tap (CurrentIndex, translation, deliveries and recompute count all
unchanged); but mouse-up — and mouse-leave while dragging — always run
nearest-slide resolution and publish through the hub, even when the pointer
never moved. -/
theorem C6_tap_amended :
    (∀ (m : Measurements) (s : SiemaState), s.drag.endX = 0 →
      (Siema.touchendHandler m s).map SiemaState.currentSlide = .ok s.currentSlide ∧
      (Siema.touchendHandler m s).map SiemaState.currentTranslation
        = .ok s.currentTranslation ∧
      (Siema.touchendHandler m s).map SiemaState.deliveries = .ok s.deliveries ∧
      (Siema.touchendHandler m s).map SiemaState.translationWrites
        = .ok s.translationWrites) ∧
    (∀ (m : Measurements) (s : SiemaState), s.drag.endX = 0 → s.innerSlides ≠ [] →
      (Siema.mouseupHandler m s).map SiemaState.translationWrites
        = .ok (s.translationWrites + 1) ∧
      (Siema.mouseupHandler m s).map Siema.deliveryCount
        = .ok (s.deliveries.length + s.registry.listeners.length)) ∧
    (∀ (m : Measurements) (s : SiemaState) (pageX : ℚ),
      s.pointerDown = true → s.innerSlides ≠ [] →
      (Siema.mouseleaveHandler m s pageX).map SiemaState.translationWrites
        = .ok (s.translationWrites + 1) ∧
      (Siema.mouseleaveHandler m s pageX).map Siema.deliveryCount
        = .ok (s.deliveries.length + s.registry.listeners.length)) := by
  refine ⟨?_, ?_, ?_⟩
  · intro m s hx
    rw [touchendHandler_noMove m s hx]
    exact ⟨by simp [Except.map], by simp [Except.map], by simp [Except.map],
      by simp [Except.map]⟩
  · intro m s _ h
    obtain ⟨s', hok, hw, hd, _⟩ := mouseupHandler_spec m s h
    rw [hok]
    exact ⟨by simp [Except.map, hw], by simp [Except.map, Siema.deliveryCount, hd]⟩
  · intro m s pageX hp h
    obtain ⟨s', hok, hw, hd, _⟩ := mouseleaveHandler_spec m s pageX hp h
    rw [hok]
    exact ⟨by simp [Except.map, hw], by simp [Except.map, Siema.deliveryCount, hd]⟩

/-- Witness for C6: the touch no-op and the mouse resolution at the
fixtures. -/
theorem C6_tap_amended_witness :
    (Siema.touchendHandler mFix sFix).map SiemaState.currentSlide
      = Except.ok sFix.currentSlide ∧
    (Siema.mouseupHandler mFix sDrag).map Siema.deliveryCount
      = Except.ok (sDrag.deliveries.length + sDrag.registry.listeners.length) := by
  exact ⟨(C6_tap_amended.1 mFix sFix (by decide)).1,
    (C6_tap_amended.2.1 mFix sDrag (by decide) (by decide)).2⟩

/-! ## C10 -/

/-- C10: on every drag release that triggers nearest-slide resolution
(mouse-up, mouse-leave while dragging, touch-end after movement), a carousel
with at least one slide resolves normally and lands on a CurrentIndex in
`[0, slideCount)` (given the render surface reports one width per slide, as
`_calculateTranslation` measures them); with zero slides the reduction over
candidate offsets has no elements and the handler throws instead of
returning. -/
theorem C10_nearest_slide_resolution :
    (∀ (m : Measurements) (s : SiemaState), s.innerSlides ≠ [] →
      m.widths.length = s.innerSlides.length →
      ∃ s', Siema.mouseupHandler m s = .ok s' ∧
        0 ≤ s'.currentSlide ∧ s'.currentSlide < (s.innerSlides.length : ℤ)) ∧
    (∀ (m : Measurements) (s : SiemaState) (pageX : ℚ), s.pointerDown = true →
      s.innerSlides ≠ [] → m.widths.length = s.innerSlides.length →
      ∃ s', Siema.mouseleaveHandler m s pageX = .ok s' ∧
        0 ≤ s'.currentSlide ∧ s'.currentSlide < (s.innerSlides.length : ℤ)) ∧
    (∀ (m : Measurements) (s : SiemaState), s.drag.endX ≠ 0 →
      s.innerSlides ≠ [] → m.widths.length = s.innerSlides.length →
      ∃ s', Siema.touchendHandler m s = .ok s' ∧
        0 ≤ s'.currentSlide ∧ s'.currentSlide < (s.innerSlides.length : ℤ)) ∧
    (∀ (m : Measurements) (s : SiemaState), s.innerSlides = [] →
      Siema.mouseupHandler m s = .error .typeError) ∧
    (∀ (m : Measurements) (s : SiemaState) (pageX : ℚ), s.pointerDown = true →
      s.innerSlides = [] → Siema.mouseleaveHandler m s pageX = .error .typeError) ∧
    (∀ (m : Measurements) (s : SiemaState), s.drag.endX ≠ 0 →
      s.innerSlides = [] → Siema.touchendHandler m s = .error .typeError) := by
  refine ⟨?_, ?_, ?_, ?_, ?_, ?_⟩
  · intro m s h hw
    obtain ⟨s', hok, _, _, hr⟩ := mouseupHandler_spec m s h
    exact ⟨s', hok, hr hw⟩
  · intro m s pageX hp h hw
    obtain ⟨s', hok, _, _, hr⟩ := mouseleaveHandler_spec m s pageX hp h
    exact ⟨s', hok, hr hw⟩
  · intro m s hx h hw
    obtain ⟨s', hok, _, _, hr⟩ := touchendHandler_move_spec m s hx h
    exact ⟨s', hok, hr hw⟩
  · intro m s h
    exact mouseupHandler_empty m s h
  · intro m s pageX hp h
    exact mouseleaveHandler_empty m s pageX hp h
  · intro m s hx h
    exact touchendHandler_move_empty m s hx h

/-- Witness for C10: a drag release over three slides resolves, and one over
zero slides throws. -/
theorem C10_nearest_slide_resolution_witness :
    (Siema.mouseupHandler mFix sDrag).toOption.isSome = true ∧
    Siema.mouseupHandler mEmpty sEmpty = .error .typeError := by
  constructor
  · obtain ⟨s', hok, _, _⟩ :=
      C10_nearest_slide_resolution.1 mFix sDrag (by decide) (by decide)
    rw [hok]
    rfl
  · exact C10_nearest_slide_resolution.2.2.2.1 mEmpty sEmpty (by decide)

/-! ## C7 -/

lemma runGoTos_lastArgs (m : Measurements) (s : SiemaState) (idxs : List ℤ)
    (h : s.registry.lastArgs = [s.currentSlide]) :
    (Siema.runGoTos m s idxs).registry.lastArgs
      = [(Siema.runGoTos m s idxs).currentSlide] := by
  induction idxs generalizing s with
  | nil => simpa [Siema.runGoTos] using h
  | cons i rest ih =>
    simp only [Siema.runGoTos, List.foldl_cons]
    exact ih (Siema.goTo m s i) (by rw [Siema.goTo_lastArgs, Siema.goTo_currentSlide])

/-- C7: after construction and any sequence of `goTo` calls, the registry
cache holds exactly the current index, so a subscriber registered through
`onChange` synchronously receives the latest published CurrentIndex as its
first delivery, before `onChange` returns (the delivery trace grows by
exactly that one replay during the call). -/
theorem C7_late_subscriber_replay (items : List ℕ) (stick : Bool) (dur : ℚ)
    (m : Measurements) (idxs : List ℤ) (cb : ℕ) :
    (Siema.onChange (Siema.runGoTos m (Siema.initState items stick dur m) idxs) cb).deliveries
      = (Siema.runGoTos m (Siema.initState items stick dur m) idxs).deliveries
        ++ [(cb, [(Siema.runGoTos m (Siema.initState items stick dur m) idxs).currentSlide])] := by
  have h := runGoTos_lastArgs m (Siema.initState items stick dur m) idxs (by simp)
  simp [Siema.onChange, CachedEventRegistry.listen, h]

/-! ## C8 -/

/-- C8 counterexample: index `itemCount + 1` is valid for `insert` (the
one-item fixture accepts `insert(6, 2)` and appends), but the immediate
`remove(2)` then throws a range error instead of restoring the prior
ItemSet — the round trip fails and the inserted item remains. -/
theorem C8_round_trip_counterexample :
    Siema.insert sOne 6 2 = Except.ok sPastEnd ∧
    sPastEnd.innerElements = [5, 6] ∧
    Siema.remove sPastEnd 2 = .error .removeIndexError := by
  refine ⟨by decide, by decide, by decide⟩

/-- C8 amended: for insertion indices in `[0, itemCount]`, `insert(item, i)`
immediately followed by `remove(i)` restores both the prior ItemSet and the
prior CurrentIndex; for the one remaining index `insert` accepts,
`i = itemCount + 1`, the item is appended and the subsequent `remove(i)`
fails with a range error, leaving the item in place. -/
theorem C8_round_trip_amended :
    (∀ (s : SiemaState) (item : ℕ) (index : ℤ) (s₁ : SiemaState),
      0 ≤ index → index ≤ (s.innerElements.length : ℤ) →
      Siema.insert s item index = .ok s₁ →
      (Siema.remove s₁ index).map SiemaState.innerElements = .ok s.innerElements ∧
      (Siema.remove s₁ index).map SiemaState.currentSlide = .ok s.currentSlide) ∧
    (∀ (s : SiemaState) (item : ℕ) (s₁ : SiemaState),
      Siema.insert s item ((s.innerElements.length : ℤ) + 1) = .ok s₁ →
      s₁.innerElements = s.innerElements ++ [item] ∧
      Siema.remove s₁ ((s.innerElements.length : ℤ) + 1) = .error .removeIndexError) := by
  constructor
  · intro s item index s₁ h0 hle hok
    obtain ⟨hc, he, _, _, _⟩ := insert_ok_spec s item index s₁ hok
    have hlen₁ : s₁.innerElements.length = s.innerElements.length + 1 := by
      rw [he, length_spliceInsert]
    obtain ⟨s₂, h2⟩ : ∃ s₂, Siema.remove s₁ index = .ok s₂ :=
      ⟨_, by unfold Siema.remove; rw [if_neg (by omega)]⟩
    obtain ⟨hc₂, he₂, _, _⟩ := remove_ok_spec s₁ index s₂ h2
    constructor
    · rw [h2]
      simp only [Except.map]
      rw [he₂, he]
      rw [spliceRemove_spliceInsert s.innerElements index.toNat item (by omega)]
    · rw [h2]
      simp only [Except.map]
      rw [hc₂, hc]
      rcases le_or_lt index s.currentSlide with hP | hP
      · rw [if_pos hP, if_pos (by omega)]
        congr 1
        omega
      · rw [if_neg (by omega), if_neg (by omega)]
  · intro s item s₁ hok
    obtain ⟨hc, he, h0, hle, hdup⟩ := insert_ok_spec s item _ s₁ hok
    have hlen₁ : s₁.innerElements.length = s.innerElements.length + 1 := by
      rw [he, length_spliceInsert]
    constructor
    · rw [he]
      exact spliceInsert_of_length_le _ _ _ (by omega)
    · unfold Siema.remove
      rw [if_pos (by omega)]

/-- Witness for C8: the restoring round trip at index 0 and the failing one
at index `itemCount + 1`, both over the one-item fixture. -/
theorem C8_round_trip_amended_witness :
    (Siema.remove sInsFront 0).map SiemaState.innerElements = Except.ok sOne.innerElements ∧
    (Siema.remove sInsFront 0).map SiemaState.currentSlide = Except.ok sOne.currentSlide ∧
    Siema.remove sPastEnd ((sOne.innerElements.length : ℤ) + 1)
      = .error .removeIndexError := by
  obtain ⟨h1, h2⟩ :=
    C8_round_trip_amended.1 sOne 6 0 sInsFront (by decide) (by decide) (by decide)
  exact ⟨h1, h2, (C8_round_trip_amended.2 sOne 6 sPastEnd (by decide)).2⟩
